import Mathlib

/-
Verification of the obsidian-rs vault-indexing engine against its
natural-language specification.

The development shallowly embeds the repository's Rust source:
  - src/data.rs      : is_hidden, traverse_vault (over walkdir),
                       parse_yaml_front_matter, the cache stubs
  - src/watcher.rs   : watcher_setup, create/modify/remove callbacks
  - src/main.rs      : the watch startup check and event loop
  - src/config.rs and src/path_expander.rs : expand_tilde
External collaborators (Rust std string methods, walkdir, notify,
serde_yaml, the environment) are modelled by explicit executable
definitions or by parameters, as documented at each definition.
-/

namespace ObsidianRs

/-- Model of Rust str::starts_with for string patterns: the pattern's
characters are a prefix of the subject's characters. -/
def strStartsWith (s pat : String) : Bool :=
  pat.data.isPrefixOf s.data

/-- Model of Rust str::ends_with for string patterns. -/
def strEndsWith (s pat : String) : Bool :=
  pat.data.isSuffixOf s.data

/-- Whitespace characters recognised by the trim model (ASCII subset of
Rust char::is_whitespace; the sources only ever trim around the three-dash
front-matter delimiter, where this subset is exact). -/
def isWhitespaceChar (c : Char) : Bool :=
  c = ' ' || c = '\t' || c = '\n' || c = '\r'

/-- Model of Rust str::trim: drop whitespace from both ends. -/
def strTrim (s : String) : String :=
  ⟨((s.data.dropWhile isWhitespaceChar).reverse.dropWhile isWhitespaceChar).reverse⟩

/-- Model of OsStr / OsString: either valid UTF-8 text or raw
(non-UTF-8) bytes. -/
inductive OsStr where
  | utf8 : String → OsStr
  | raw : List Nat → OsStr
deriving DecidableEq

/-- Model of OsStr::to_str: some for UTF-8 names, none otherwise. -/
def OsStr.toStr : OsStr → Option String
  | .utf8 s => some s
  | .raw _ => none

/-- Model of PathBuf::push of a component string onto a base path: an
absolute component replaces the base, otherwise it is appended with a
separator when one is needed. -/
def pathPush (base rest : String) : String :=
  if strStartsWith rest "/" then rest
  else if base = "" || strEndsWith base "/" then base ++ rest
  else base ++ "/" ++ rest

/-- Embedding of expand_tilde from src/config.rs lines 70-91 (the body in
src/path_expander.rs lines 34-58 and src/util.rs is identical).  The
home-directory environment lookup get_home_dir (HOME / USERPROFILE) is the
explicit parameter home.  A non-UTF-8 path is returned unchanged; a path
equal to a tilde expands to the home directory; a path starting with
tilde-slash expands by pushing the remainder after the two-byte prefix onto
the home directory; anything else is returned unchanged. -/
def expand_tilde (home : Option String) (input_path : OsStr) : Option OsStr :=
  match input_path.toStr with
  | none => some input_path
  | some path_str =>
    if path_str = "~" then
      home.map (fun home_dir => OsStr.utf8 home_dir)
    else if strStartsWith path_str "~/" then
      home.map (fun home_dir => OsStr.utf8 (pathPush home_dir (path_str.drop 2)))
    else some input_path

/-- The tilde-shaped inputs named by claim C10: exactly a tilde, or
starting with tilde-slash, judged on the UTF-8 view of the path. -/
def tildeShaped (p : OsStr) : Bool :=
  match p.toStr with
  | none => false
  | some s => if s = "~" then true else strStartsWith s "~/"

mutual
/-- A directory tree on disk: a named regular file or a named directory
with a forest of children.  Mutual with FsForest so that structural
recursion and induction are available. -/
inductive FsEntry where
  | file : OsStr → FsEntry
  | dir : OsStr → FsForest → FsEntry
/-- A list of sibling directory entries. -/
inductive FsForest where
  | nil : FsForest
  | cons : FsEntry → FsForest → FsForest
end

/-- Embedding of is_hidden from src/data.rs lines 121-127: the entry's
file name, viewed as UTF-8, starts with a dot; a non-UTF-8 name is not
hidden (to_str gives None and unwrap_or(false) applies). -/
def is_hidden (name : OsStr) : Bool :=
  (name.toStr.map (fun s => strStartsWith s ".")).getD false

mutual
/-- Model of the walkdir iterator with filter_entry: depth-first walk
yielding, for each entry that satisfies keep, its path (component list
from the root entry down) and whether it is a regular file.  An entry
failing keep is skipped together with its entire subtree, and the
predicate applies to the root entry itself — walkdir's documented
filter_entry semantics. -/
def walkEntry (keep : OsStr → Bool) : FsEntry → List (List OsStr × Bool)
  | .file n => if keep n then [([n], true)] else []
  | .dir n f =>
      if keep n then ([n], false) :: (walkForest keep f).map (fun e => (n :: e.1, e.2))
      else []
/-- Walk of a forest of sibling entries, in order. -/
def walkForest (keep : OsStr → Bool) : FsForest → List (List OsStr × Bool)
  | .nil => []
  | .cons e f => walkEntry keep e ++ walkForest keep f
end

/-- Embedding of traverse_vault from src/data.rs lines 129-144: walk the
vault root with the not-hidden filter_entry predicate, skip entries that
are not regular files, and collect the file paths in walk order. -/
def traverse_vault (root : FsEntry) : List (List OsStr) :=
  ((walkEntry (fun n => !is_hidden n) root).filter (fun e => e.2)).map (fun e => e.1)

/-- The final name component of a path (the entry's own file name). -/
def lastName (p : List OsStr) : OsStr :=
  p.getLast?.getD (.utf8 "")

/-- Reading of claim C1's words, for comparison with traverse_vault: all
regular files under the root except those whose own file name begins with
a dot. -/
def specFilesByOwnName (root : FsEntry) : List (List OsStr) :=
  ((walkEntry (fun _ => true) root).filter
    (fun e => e.2 && !is_hidden (lastName e.1))).map (fun e => e.1)

/-- The amended reading for claim C1: all regular files every one of whose
path components, the root entry's own name included, is non-hidden. -/
def specFilesAllComponentsVisible (root : FsEntry) : List (List OsStr) :=
  ((walkEntry (fun _ => true) root).filter
    (fun e => e.2 && e.1.all (fun n => !is_hidden n))).map (fun e => e.1)

/-- Concrete vault for claim C1: a visible root holding a hidden
directory which holds a visibly-named file. -/
def exVaultC1 : FsEntry :=
  .dir (.utf8 "vault")
    (.cons (.dir (.utf8 ".h") (.cons (.file (.utf8 "c.md")) .nil)) .nil)

/-- Front-matter record from src/data.rs lines 79-86; every field is
optional, defaulting to absent. -/
structure FrontMatter where
  title : Option String := none
  github : Option String := none
  created : Option (List String) := none
  tags : Option (List String) := none
  authors : Option (List String) := none
deriving DecidableEq

/-- Errors surfaced by parse_yaml_front_matter; open/read I/O failures lie
outside the pure model (the lines are given directly). -/
inductive ParseError where
  | malformedFrontMatter
  | yamlError
deriving DecidableEq

/-- The collection loop of parse_yaml_front_matter (src/data.rs lines
167-178): append each line plus a newline until a line trimming to the
three-dash delimiter; the flag records whether the closing delimiter was
found. -/
def collectYaml : List String → String × Bool
  | [] => ("", false)
  | line :: rest =>
    if strTrim line = "---" then ("", true)
    else
      let p := collectYaml rest
      (line ++ "\n" ++ p.1, p.2)

/-- Embedding of parse_yaml_front_matter from src/data.rs lines 146-228.
The file's contents are given as its list of lines; yamlParse stands for
the external serde_yaml deserializer (none models a deserialization
error); file_stem stands for file_path.file_stem().  If the first line
does not trim to the delimiter (or the file is empty) the result is Ok
None; a missing closing delimiter is an error; empty delimited content is
Ok None; a YAML failure is an error; otherwise, when the parsed title is
absent and the stem is UTF-8, the stem is substituted as the title. -/
def parse_yaml_front_matter (yamlParse : String → Option FrontMatter)
    (lines : List String) (file_stem : Option OsStr) :
    Except ParseError (Option FrontMatter) :=
  match lines with
  | [] => .ok none
  | first :: rest =>
    if strTrim first = "---" then
      match collectYaml rest with
      | (_, false) => .error .malformedFrontMatter
      | (yaml_content, true) =>
        if strTrim yaml_content = "" then .ok none
        else
          match yamlParse yaml_content with
          | none => .error .yamlError
          | some data =>
            .ok (some
              (if data.title = none then
                match file_stem with
                | some (.utf8 stem_str) => { data with title := some stem_str }
                | _ => data
              else data))
    else .ok none

/-- Embedding of exists_in_cache from src/data.rs lines 249-251: the body
is the constant true. -/
def exists_in_cache (entry : String) : Bool := true

/-- Embedding of add_to_cache from src/data.rs lines 254-256: the body
returns Ok(()) and does nothing. -/
def add_to_cache (entry : String) : Except String Unit := .ok ()

/-- Embedding of update_in_cache from src/data.rs lines 262-264: the body
returns Ok(()) and does nothing. -/
def update_in_cache (entry : String) : Except String Unit := .ok ()

/-- Embedding of invalidate_cache from src/data.rs lines 237-246: for
each node, add it when absent from the cache, otherwise update it,
propagating the first error. -/
def invalidate_cache : List String → Except String Unit
  | [] => .ok ()
  | node :: rest =>
    match (if !exists_in_cache node then add_to_cache node else update_in_cache node) with
    | .error e => .error e
    | .ok _ => invalidate_cache rest

/-- Embedding of remove_from_cache from src/data.rs lines 258-259: the
function takes no key and its body is empty. -/
def remove_from_cache : Unit := ()

/-- Rename modes of the notify crate (never inspected by the sources:
modify_callback matches the name kind with a wildcard). -/
inductive RenameMode where
  | any
  | toDest
  | fromSource
  | both
  | other
deriving DecidableEq

/-- Modification kinds of the notify crate. -/
inductive ModifyKind where
  | any
  | data
  | metadata
  | name (mode : RenameMode)
  | other
deriving DecidableEq

/-- Event kinds of the notify crate; the create/remove/access payloads are
never inspected by the sources and are omitted. -/
inductive EventKind where
  | any
  | access
  | create
  | modify (m : ModifyKind)
  | remove
  | other
deriving DecidableEq

/-- A notify event: its kind and the involved paths (rendered as their
display strings). -/
structure Event where
  kind : EventKind
  paths : List String
deriving DecidableEq

/-- Embedding of create_callback (src/watcher.rs lines 50-57, identical in
src/main.rs): the emitted log lines, in order. -/
def create_callback (event : Event) : List String :=
  ["--- Create Event ---", "  Paths involved: " ++ toString event.paths.length] ++
    event.paths.map (fun path => "   -> Created: " ++ path)

/-- Embedding of modify_callback (src/watcher.rs lines 59-83, identical in
src/main.rs): the emitted log lines, in order.  A name-modification event
carrying two paths logs them as the rename source and destination;
otherwise each path is logged individually. -/
def modify_callback (event : Event) : List String :=
  ["--- Modify Event ---", "  Paths involved: " ++ toString event.paths.length] ++
    (match event.kind with
     | .modify (.name _) =>
        if event.paths.length = 2 then
          ["   -> Renamed/Moved From: " ++ event.paths.getD 0 "",
           "   -> Renamed/Moved To:   " ++ event.paths.getD 1 ""]
        else event.paths.map (fun path => "   -> Modified Part: " ++ path)
     | _ => event.paths.map (fun path => "   -> Edited: " ++ path))

/-- Embedding of remove_callback (src/watcher.rs lines 85-92, identical in
src/main.rs): the emitted log lines, in order. -/
def remove_callback (event : Event) : List String :=
  ["--- Remove Event ---", "  Paths involved: " ++ toString event.paths.length] ++
    event.paths.map (fun path => "   -> Removed: " ++ path)

/-- What the watch loop did with one received item. -/
inductive LoopAction where
  | invoked (logLines : List String)
  | ignoredKind
  | loggedError
deriving DecidableEq

/-- Embedding of the body of the event loop in watch (src/main.rs lines
81-101): a delivery error is logged and the loop continues; a
create/remove/modify event is dispatched to its callback; every other
kind is ignored.  No path is inspected before dispatch. -/
def handle_loop_event : Except String Event → LoopAction
  | .error _ => .loggedError
  | .ok event =>
    match event.kind with
    | .create => .invoked (create_callback event)
    | .remove => .invoked (remove_callback event)
    | .modify _ => .invoked (modify_callback event)
    | _ => .ignoredKind

/-- Errors of the notify crate as used by the sources. -/
inductive NotifyError where
  | pathNotFound
  | watcherError (code : Nat)
deriving DecidableEq

/-- Opaque handle standing for a constructed RecommendedWatcher. -/
structure WatcherHandle where
  id : Nat
deriving DecidableEq

/-- True exactly on the error branch of an Except value. -/
def isErrorResult : Except ε α → Bool
  | .error _ => true
  | .ok _ => false

/-- Embedding of watcher_setup from src/watcher.rs lines 12-22.  The
external steps are parameters: newWatcher is the result of constructing
the RecommendedWatcher, pathExists is path.exists(), and watchInstall is
watcher.watch on the root.  Construction failure propagates; a
non-existent path returns the path-not-found error before any watch is
installed; installation failure propagates; otherwise the watcher is
returned.  The code consults no property of the path other than
existence. -/
def watcher_setup (newWatcher : Except NotifyError WatcherHandle)
    (pathExists : Bool)
    (watchInstall : WatcherHandle → Except NotifyError Unit) :
    Except NotifyError WatcherHandle :=
  match newWatcher with
  | .error e => .error e
  | .ok w =>
    if !pathExists then .error .pathNotFound
    else
      match watchInstall w with
      | .error e => .error e
      | .ok _ => .ok w

/-- Embedding of watch from src/main.rs lines 63-104: the same startup
sequence as watcher_setup, then the event loop drains the channel (the
events parameter) and handles each item; the result records the loop's
actions in order. -/
def watch (newWatcher : Except NotifyError WatcherHandle)
    (pathExists : Bool)
    (watchInstall : WatcherHandle → Except NotifyError Unit)
    (events : List (Except String Event)) :
    Except NotifyError (List LoopAction) :=
  match newWatcher with
  | .error e => .error e
  | .ok w =>
    if !pathExists then .error .pathNotFound
    else
      match watchInstall w with
      | .error e => .error e
      | .ok _ => .ok (events.map handle_loop_event)

/-- Filtering a cons-mapped walk by the all-components predicate pushes the
new head component's keep-test outside the filter. -/
theorem filter_all_map_cons (n : OsStr) (keep : OsStr → Bool)
    (l : List (List OsStr × Bool)) :
    ((l.map (fun e => (n :: e.1, e.2))).filter (fun e => e.1.all keep)) =
      if keep n then
        (l.filter (fun e => e.1.all keep)).map (fun e => (n :: e.1, e.2))
      else [] := by
  induction l with
  | nil => cases keep n <;> simp
  | cons a l ih =>
      cases hk : keep n <;> cases ha : a.1.all keep <;>
        simp [List.filter_cons, List.all_cons, hk, ha, ih]

mutual
/-- The filtered walk equals the unfiltered walk restricted to entries all
of whose path components satisfy the predicate. -/
theorem walkEntry_as_filter (keep : OsStr → Bool) :
    (t : FsEntry) →
      walkEntry keep t = (walkEntry (fun _ => true) t).filter (fun e => e.1.all keep)
  | .file n => by
      cases hk : keep n <;> simp [walkEntry, List.filter_cons, List.all_cons, hk]
  | .dir n f => by
      have hf := walkForest_as_filter keep f
      cases hk : keep n <;>
        simp [walkEntry, List.filter_cons, List.all_cons, hk, filter_all_map_cons, hf]
/-- Forest version of walkEntry_as_filter. -/
theorem walkForest_as_filter (keep : OsStr → Bool) :
    (f : FsForest) →
      walkForest keep f = (walkForest (fun _ => true) f).filter (fun e => e.1.all keep)
  | .nil => by simp [walkForest]
  | .cons e f => by
      rw [walkForest, walkForest, List.filter_append,
        ← walkEntry_as_filter keep e, ← walkForest_as_filter keep f]
end

/-- C1 counterexample: in the vault tree exVaultC1 the file c.md has a
non-hidden own file name, so the claim's reading (exclude exactly the
entries whose own file name begins with a dot) retains it, yet
traverse_vault returns the empty list because the enclosing directory .h
is pruned together with its subtree. -/
theorem traverse_vault_own_name_counterexample :
    traverse_vault exVaultC1 = [] ∧
    specFilesByOwnName exVaultC1 =
      [[OsStr.utf8 "vault", OsStr.utf8 ".h", OsStr.utf8 "c.md"]] :=
  ⟨rfl, rfl⟩

/-- C1 (amended): traverse_vault returns exactly the regular files of the
walk all of whose path components — the root entry's own name included —
are non-hidden; a hidden entry is excluded together with its whole
subtree. -/
theorem traverse_vault_eq_visible (root : FsEntry) :
    traverse_vault root = specFilesAllComponentsVisible root := by
  unfold traverse_vault specFilesAllComponentsVisible
  rw [walkEntry_as_filter, List.filter_filter]

/-- C9: when the vault root directory's own name begins with a dot, the
filter_entry predicate prunes the root entry itself, so traverse_vault
returns the empty file list whatever the root contains. -/
theorem traverse_vault_hidden_root (s : String) (f : FsForest)
    (h : strStartsWith s "." = true) :
    traverse_vault (.dir (.utf8 s) f) = [] := by
  simp [traverse_vault, walkEntry, is_hidden, OsStr.toStr, h]

/-- C9 witness: a dot-named root holding a visible file yields an empty
walk. -/
theorem traverse_vault_hidden_root_witness :
    strStartsWith ".obsidian" "." = true ∧
    traverse_vault
      (.dir (.utf8 ".obsidian") (.cons (.file (.utf8 "a.md")) .nil)) = [] :=
  ⟨rfl, traverse_vault_hidden_root ".obsidian" (.cons (.file (.utf8 "a.md")) .nil) rfl⟩

/-- C2: the cache layer is a stub that can never drive token-based
re-extraction — exists_in_cache reports every path as present, and
invalidate_cache returns Ok(()) on every node list without ever invoking
the metadata extractor (no extraction call occurs in its body or in the
add/update stubs it calls), so no observation issues the one extraction
call the claim requires on a token change. -/
theorem cache_stubs_never_extract :
    (∀ p : String, exists_in_cache p = true) ∧
    (∀ nodes : List String, invalidate_cache nodes = .ok ()) := by
  refine ⟨fun p => rfl, fun nodes => ?_⟩
  induction nodes with
  | nil => rfl
  | cons node rest ih => simp [invalidate_cache, exists_in_cache, update_in_cache, ih]

/-- C3: handling a two-path rename event, modify_callback only emits log
lines; its result type is the emitted log, and no index-store operation
exists in the live path, so no Record is relocated and no old key is
removed. -/
theorem modify_callback_rename_only_logs :
    modify_callback
      { kind := .modify (.name .both), paths := ["/vault/a.md", "/vault/b.md"] } =
      ["--- Modify Event ---", "  Paths involved: 2",
       "   -> Renamed/Moved From: /vault/a.md",
       "   -> Renamed/Moved To:   /vault/b.md"] := rfl

/-- C4: a file whose front matter cannot be parsed is reported as an
error, not as a record with absent metadata — a missing closing delimiter
yields the malformed-front-matter error, and a YAML deserialization
failure yields the yaml error; in neither case is Ok returned for the
file. -/
theorem parse_failure_is_error_not_indexed :
    parse_yaml_front_matter (fun _ => some {}) ["---", "title: Alpha"]
      (some (.utf8 "note")) = .error .malformedFrontMatter ∧
    parse_yaml_front_matter (fun _ => none) ["---", "][", "---"]
      (some (.utf8 "note")) = .error .yamlError :=
  ⟨rfl, rfl⟩

/-- C5: a create event for a dot-named file inside the vault is dispatched
to create_callback by the event loop — the loop inspects only the event
kind, never the paths, so no hidden-name or outside-root event is dropped
before processing. -/
theorem hidden_event_not_dropped :
    handle_loop_event (.ok { kind := .create, paths := ["/vault/.hidden.md"] }) =
      .invoked ["--- Create Event ---", "  Paths involved: 1",
        "   -> Created: /vault/.hidden.md"] := rfl

/-- C6: remove_from_cache takes no key and evaluates to unit — it can
neither return the prior Record of a present key nor distinguish a
present key from an absent one. -/
theorem remove_from_cache_is_unit_stub : remove_from_cache = () := rfl

/-- C7 counterexample: with a root whose existence check passes — which
holds equally for an existing regular file, since the code consults
nothing but path.exists() — and succeeding external watcher steps,
watcher_setup returns the watcher and watch enters its event loop; the
claim instead requires startup to fail for a root that is not a
directory. -/
theorem watcher_setup_nondirectory_counterexample :
    watcher_setup (.ok ⟨0⟩) true (fun _ => .ok ()) = .ok ⟨0⟩ ∧
    watch (.ok ⟨0⟩) true (fun _ => .ok ()) [] = .ok [] :=
  ⟨rfl, rfl⟩

/-- C7 (amended): when the root path does not exist, startup fails fast —
watcher_setup and watch return the path-not-found error (or the watcher
construction error) without installing any watch or entering the loop,
for every behaviour of the external steps. -/
theorem startup_fails_fast_on_missing_root
    (w : WatcherHandle) (n : Except NotifyError WatcherHandle)
    (wi : WatcherHandle → Except NotifyError Unit)
    (events : List (Except String Event)) :
    watcher_setup (.ok w) false wi = .error .pathNotFound ∧
    watch (.ok w) false wi events = .error .pathNotFound ∧
    isErrorResult (watcher_setup n false wi) = true ∧
    isErrorResult (watch n false wi events) = true := by
  refine ⟨rfl, rfl, ?_, ?_⟩ <;> cases n <;> rfl

/-- C8 counterexample: the file whose lines are two bare delimiters has
well-delimited front matter with no title field (any YAML reading of its
empty content — here the constant all-absent record — lacks a title), and
its stem is UTF-8, yet parse_yaml_front_matter returns Ok None rather
than a record titled by the file stem. -/
theorem parse_front_matter_empty_counterexample :
    parse_yaml_front_matter (fun _ => some {}) ["---", "---"]
      (some (.utf8 "note")) = .ok none ∧
    ({} : FrontMatter).title = none ∧
    ∀ fm : FrontMatter,
      parse_yaml_front_matter (fun _ => some {}) ["---", "---"]
        (some (.utf8 "note")) ≠ .ok (some fm) :=
  ⟨rfl, rfl, fun fm h => Option.noConfusion (Except.ok.inj h)⟩

/-- C8 (amended): when the first line trims to the delimiter, the closing
delimiter is found, the delimited content is not whitespace-only, the
YAML reading of the content succeeds with an absent title, and the file
stem is UTF-8, parse_yaml_front_matter substitutes the stem as the title
of the returned record. -/
theorem parse_front_matter_title_substitution
    (yamlParse : String → Option FrontMatter) (first : String)
    (rest : List String) (stem_str : String) (fm : FrontMatter)
    (hfirst : strTrim first = "---")
    (hclosed : (collectYaml rest).2 = true)
    (hnonempty : ¬ strTrim (collectYaml rest).1 = "")
    (hparse : yamlParse (collectYaml rest).1 = some fm)
    (htitle : fm.title = none) :
    parse_yaml_front_matter yamlParse (first :: rest) (some (.utf8 stem_str)) =
      .ok (some { fm with title := some stem_str }) := by
  rcases hcy : collectYaml rest with ⟨yc, b⟩
  rw [hcy] at hclosed hnonempty hparse
  simp only at hclosed
  subst hclosed
  simp [parse_yaml_front_matter, hfirst, hcy, hnonempty, hparse, htitle]

/-- C8 witness: a front-matter body holding only a github field and no
title, in a file with stem note, parses to a record titled note. -/
theorem parse_front_matter_title_substitution_witness :
    strTrim "---" = "---" ∧
    (collectYaml ["github: x", "---"]).2 = true ∧
    ¬ strTrim (collectYaml ["github: x", "---"]).1 = "" ∧
    parse_yaml_front_matter (fun _ => some {}) ["---", "github: x", "---"]
      (some (.utf8 "note")) = .ok (some { title := some "note" }) :=
  ⟨rfl, rfl, by decide,
    parse_front_matter_title_substitution (fun _ => some {}) "---"
      ["github: x", "---"] "note" {} rfl rfl (by decide) rfl rfl⟩

/-- C10: expand_tilde returns none exactly when the input is tilde-shaped
(exactly a tilde, or starting with tilde-slash, on the UTF-8 view) and
the home directory is unset; every input that is not tilde-shaped —
non-UTF-8 paths and tilde-user forms included — is returned unchanged
inside some. -/
theorem expand_tilde_none_iff (home : Option String) (p : OsStr) :
    (expand_tilde home p = none ↔ (tildeShaped p = true ∧ home = none)) ∧
    (tildeShaped p = false → expand_tilde home p = some p) := by
  cases p with
  | raw b => simp [expand_tilde, tildeShaped, OsStr.toStr]
  | utf8 s =>
      by_cases h1 : s = "~"
      · simp [expand_tilde, tildeShaped, OsStr.toStr, h1, Option.map_eq_none']
      · by_cases h2 : strStartsWith s "~/" = true
        · simp [expand_tilde, tildeShaped, OsStr.toStr, h1, h2, Option.map_eq_none']
        · simp [expand_tilde, tildeShaped, OsStr.toStr, h1, h2]

/-- C10 witness: with a home directory set, a tilde-user path is not
tilde-shaped and comes back unchanged. -/
theorem expand_tilde_none_iff_witness :
    tildeShaped (OsStr.utf8 "~user") = false ∧
    expand_tilde (some "/home/u") (OsStr.utf8 "~user") = some (OsStr.utf8 "~user") :=
  ⟨by decide, (expand_tilde_none_iff (some "/home/u") (OsStr.utf8 "~user")).2 (by decide)⟩

end ObsidianRs
